import Mathlib

/-!
Verification of the daynews-app conversion orchestration subsystem.

Shallow embedding of the repository sources:
  src/ebook_generator.py  (EbookGenerator.create_recipe_file, EbookGenerator.generate_ebook,
                           EbookGenerator._verify_calibre_installed)
  src/main.py             (main: feed check, recipe call keywords, output verification)
  src/email_sender.py     (EmailSender.send_email)

Pure functions of the source are translated to Lean functions; filesystem,
process and SMTP effects are abstracted into explicit environment records,
and Python exceptions are modelled with Except.
-/

set_option maxRecDepth 100000

namespace DayNews

/-- The single-quote character, the string delimiter used by the generated recipe. -/
def squote : Char := Char.ofNat 39

/-- One-character string holding the single quote. -/
def sq : String := String.singleton squote

/-- One entry of feeds_data["feeds"], as produced by FeedManager.fetch_feeds
(ebook_generator reads feed["title"] and feed["url"]). -/
structure Feed where
  title : String
  url : String
deriving DecidableEq

/-- The feeds_data dictionary consumed by create_recipe_file:
feeds_data["title"] and feeds_data["feeds"]. -/
structure FeedsData where
  title : String
  feeds : List Feed
deriving DecidableEq

/-- ebook_generator.py lines 37-42: max_articles_per_feed is 1 in test mode
and 10 otherwise. -/
def maxArticlesPerFeed (testMode : Bool) : Nat :=
  if testMode then 1 else 10

/-- ebook_generator.py line 72: feed_list is feeds_data["feeds"] truncated to
its first element in test mode, the full list otherwise. -/
def feedList (fd : FeedsData) (testMode : Bool) : List Feed :=
  if testMode then fd.feeds.take 1 else fd.feeds

/-- ebook_generator.py line 75: one generated line per feed, interpolating the
title and url verbatim between single quotes. -/
def feedLine (f : Feed) : String :=
  "        (" ++ sq ++ f.title ++ sq ++ ", " ++ sq ++ f.url ++ sq ++ "),\n"

/-- ebook_generator.py lines 45-69: the f-string header of the recipe file,
up to and including the line that opens the feeds list. -/
def recipeHeader (fd : FeedsData) (testMode : Bool) : String :=
  "\n#!/usr/bin/env python\n# vim:fileencoding=utf-8\n\nfrom calibre.web.feeds.recipes import BasicNewsRecipe\n\nclass DayNewsRecipe(BasicNewsRecipe):\n    title = " ++ sq ++ (if testMode then "[TEST] " else "") ++ fd.title ++ sq ++ "\n    oldest_article = 1\n    max_articles_per_feed = " ++ toString (maxArticlesPerFeed testMode) ++ "\n    auto_cleanup = True\n    \n    # Optimization settings\n    simultaneous_downloads = " ++ (if testMode then "1" else "2") ++ "\n    delay = " ++ (if testMode then "0.1" else "0.2") ++ "  # Delay between fetches\n    timefmt = " ++ sq ++ sq ++ "  # Skip date formatting to save processing\n    no_stylesheets = True\n    remove_javascript = True\n    scale_news_images = " ++ (if testMode then "(200, 200)" else "(400, 400)") ++ "\n    \n    # Test mode optimizations\n    " ++ (if testMode then "summary_length = 100  # Very short summaries in test mode" else "") ++ "\n    \n    feeds = [\n"

/-- ebook_generator.py lines 45-77: the full recipe text written to the
recipe file, a pure function of (feeds_data, test_mode). -/
def recipeContent (fd : FeedsData) (testMode : Bool) : String :=
  recipeHeader fd testMode ++ String.join ((feedList fd testMode).map feedLine) ++ "    ]"

/-- The parameter names accepted by EbookGenerator.create_recipe_file
(ebook_generator.py line 29). -/
def create_recipe_file_params : List String :=
  ["self", "feeds_data", "output_dir", "test_mode"]

/-- The keyword-argument names main.py lines 92-97 passes to create_recipe_file
(positional arguments feeds_data and output_dir excluded). -/
def main_create_recipe_call_keywords : List String :=
  ["max_articles", "test_mode"]

/-- A Python call raises TypeError when a keyword argument does not match any
parameter name of the callee. -/
def mainRecipeCallRaisesTypeError : Bool :=
  main_create_recipe_call_keywords.any (fun k => !(create_recipe_file_params.contains k))

/-- Substring test on character lists: needle occurs contiguously in hay. -/
def isSubstring (needle : List Char) : List Char → Bool
  | [] => needle.isEmpty
  | c :: t => needle.isPrefixOf (c :: t) || isSubstring needle t

/-- Python `needle in hay` on strings. -/
def strContains (hay needle : String) : Bool :=
  isSubstring needle.data hay.data

/-- Python str.lower(), modelled characterwise (the markers under study are
ASCII). -/
def lowerStr (s : String) : String :=
  String.mk (s.data.map Char.toLower)

/-- Modelled Python exceptions that can cross the functions under study. -/
inductive PyExc
  | runtimeError (msg : String)
  | valueError (msg : String)
  | typeError (msg : String)
  | fileNotFound (msg : String)
deriving DecidableEq

/-- main.py lines 83-85: the caller rejects an empty fetched feed list with a
ValueError before any recipe is built. -/
def mainFeedsCheck (feeds : List Feed) : Except PyExc Unit :=
  if feeds.isEmpty then
    .error (.valueError "No feeds to process - please check your feeds.json file")
  else .ok ()

/-- Consume an exact expected prefix of characters, returning the remainder. -/
def dropExact : List Char → List Char → Option (List Char)
  | [], cs => some cs
  | _ :: _, [] => none
  | p :: ps, c :: cs => if c = p then dropExact ps cs else none

/-- Scan up to the next single quote; the quote is consumed and not returned. -/
def takeUntilQuote : List Char → Option (List Char × List Char)
  | [] => none
  | c :: cs =>
    if c = squote then some ([], cs)
    else
      match takeUntilQuote cs with
      | some (pre, rest) => some (c :: pre, rest)
      | none => none

/-- Modelled from the spec round-trip reading: parse one generated feed line
of the recipe, a single-quoted Python tuple, recovering the title and url
between the quote delimiters. -/
def parseFeedTuple (line : String) : Option (String × String) :=
  match dropExact ("        (" ++ sq).data line.data with
  | none => none
  | some cs1 =>
    match takeUntilQuote cs1 with
    | none => none
    | some (t, cs2) =>
      match dropExact (", " ++ sq).data cs2 with
      | none => none
      | some cs3 =>
        match takeUntilQuote cs3 with
        | none => none
        | some (u, cs4) =>
          if cs4 = "),\n".data then some (String.mk t, String.mk u) else none

/-- Categories assigned to log lines by the progress code in generate_ebook.
The code never distinguishes warning from error (both echo the line), so a
single warnError category models that branch. -/
inductive LineCat
  | feedStart
  | downloading
  | parsing
  | converting
  | warnError
  | uncategorized
deriving DecidableEq

/-- ebook_generator.py lines 197-209: classification of one stdout line,
with show_progress enabled. "Processing feed" is matched case-sensitively on
the raw line; the remaining markers are matched on line.lower(). -/
def classifyStdoutLine (line : String) : LineCat :=
  if strContains line "Processing feed" then .feedStart
  else if strContains (lowerStr line) "downloading" || strContains (lowerStr line) "fetching" then
    .downloading
  else if strContains (lowerStr line) "parsing" then .parsing
  else if strContains (lowerStr line) "converting" then .converting
  else .uncategorized

/-- ebook_generator.py lines 211-218: classification of one stderr line —
lines whose lowercase form contains an error or warning marker are echoed. -/
def classifyStderrLine (line : String) : LineCat :=
  if strContains (lowerStr line) "error" || strContains (lowerStr line) "warning" then .warnError
  else .uncategorized

/-- Modelled from the spec wording of claim C9: one classifier for every
incoming line, case-insensitive, in the fixed priority order
FeedStart > Warning/Error > Downloading > Parsing > Converting. -/
def classifyClaimOrder (line : String) : LineCat :=
  if strContains (lowerStr line) "processing feed" then .feedStart
  else if strContains (lowerStr line) "error" || strContains (lowerStr line) "warning" then .warnError
  else if strContains (lowerStr line) "downloading" || strContains (lowerStr line) "fetching" then
    .downloading
  else if strContains (lowerStr line) "parsing" then .parsing
  else if strContains (lowerStr line) "converting" then .converting
  else .uncategorized

/-- ebook_generator.py lines 114-134: the ebook-convert argument list as a
function of (low_memory, test_mode). The base list always carries
`--verbose`; the low-memory block is appended when low_memory or test_mode;
the test-only block is appended when test_mode. -/
def buildCmd (recipePath outputPath : String) (lowMemory testMode : Bool) : List String :=
  let cmd := ["ebook-convert", recipePath, outputPath, "--verbose"]
  let cmd := if lowMemory || testMode then
    cmd ++ ["--output-profile", "mobile", "--no-process-images"] else cmd
  if testMode then cmd ++ ["--timeout", "10", "--max-toc-links", "1"] else cmd

/-- Modelled from the spec wording of claim C4: the argument table of the
claim — no `--verbose` in test mode, and only the low-memory pair of options
appended. -/
def claimCmdTable (recipePath outputPath : String) (lowMemory testMode : Bool) : List String :=
  ["ebook-convert", recipePath, outputPath] ++ (if testMode then [] else ["--verbose"]) ++
    (if lowMemory || testMode then ["--output-profile", "mobile", "--no-process-images"] else [])

/-- The argument table the code actually implements, written in the
declarative style of the claim. -/
def correctedCmdTable (recipePath outputPath : String) (lowMemory testMode : Bool) : List String :=
  ["ebook-convert", recipePath, outputPath, "--verbose"] ++
    (if lowMemory || testMode then ["--output-profile", "mobile", "--no-process-images"] else []) ++
    (if testMode then ["--timeout", "10", "--max-toc-links", "1"] else [])

/-- One iteration of the supervision loop of generate_ebook while
process.poll() is None: the elapsed wall-clock time observed at the top of
the iteration and the lines (if any) the two readline calls yield. Elapsed
times between iterations are arbitrary, because the readline calls on the
live process block for as long as the child stays silent. -/
structure PollStep where
  elapsed : ℚ
  stdoutLine : Option String
  stderrLine : Option String
deriving DecidableEq

/-- Observable behaviour of one supervised ebook-convert process: the poll
iterations seen while it runs, then its exit code. -/
structure ProcRun where
  steps : List PollStep
  exitCode : Int
deriving DecidableEq

/-- Environment of one generate_ebook invocation: whether the recipe file
exists, how the spawned process behaves, and whether the output artifact
exists on disk after the process finishes. -/
structure GenEnv where
  recipeExists : Bool
  run : ProcRun
  outputExists : Bool
deriving DecidableEq

/-- ebook_generator.py lines 179-227: the timeout check at the top of each
poll iteration. Returns some (elapsed, terminateCalled) when the branch of
line 182 fires — process.terminate() at line 183 is the only kill site in
the supervisor, mirrored by the Bool being true exactly there — and none
when the loop instead ends because the process exited. -/
def pollLoop (timeout : ℚ) : List PollStep → Option (ℚ × Bool)
  | [] => none
  | s :: rest =>
    if timeout < s.elapsed then some (s.elapsed, true) else pollLoop timeout rest

/-- The typed exceptions generate_ebook can raise internally before its
except clauses rewrap them (lines 103-106, 188, 265). -/
inductive GenInnerExc
  | fileNotFoundExc
  | timeoutExpired
  | calledProcessError (code : Int)
deriving DecidableEq

/-- ebook_generator.py lines 93-279, the try body: verify the recipe file,
run the poll loop, raise on timeout or non-zero exit, and otherwise return
output_path — without checking that the output file exists. -/
def generateEbookBody (env : GenEnv) (timeout : ℚ) (outputPath : String) :
    Except GenInnerExc String :=
  if env.recipeExists = false then .error .fileNotFoundExc
  else
    match pollLoop timeout env.run.steps with
    | some _ => .error .timeoutExpired
    | none =>
      if env.run.exitCode ≠ 0 then .error (.calledProcessError env.run.exitCode)
      else .ok outputPath

/-- ebook_generator.py lines 281-292: every exception of the try body is
caught and re-raised as RuntimeError, so generate_ebook either returns the
output path or raises RuntimeError. -/
def generateEbook (env : GenEnv) (timeout : ℚ) (outputPath : String) :
    Except PyExc String :=
  match generateEbookBody env timeout outputPath with
  | .ok p => .ok p
  | .error .fileNotFoundExc =>
      .error (.runtimeError "Failed to generate ebook: recipe file not found")
  | .error .timeoutExpired => .error (.runtimeError "Ebook generation timed out")
  | .error (.calledProcessError _) =>
      .error (.runtimeError "Failed to generate ebook: ebook-convert failed")

/-- ebook_generator.py lines 17-27: the constructor probe raises RuntimeError
when ebook-convert is not invokable. -/
def verifyCalibreInstalled (toolOk : Bool) : Except PyExc Unit :=
  if toolOk then .ok ()
  else .error (.runtimeError "Calibre command-line tools are required but not found")

/-- main.py lines 101-114: run generate_ebook, then verify the output file
exists on disk, raising FileNotFoundError when it does not. -/
def mainConvertAndVerify (env : GenEnv) (timeout : ℚ) (outputPath : String) :
    Except PyExc String :=
  match generateEbook env timeout outputPath with
  | .error e => .error e
  | .ok p =>
    if env.outputExists = false then
      .error (.fileNotFound ("Failed to generate ebook file: " ++ outputPath))
    else .ok p

/-- The email configuration dictionary of email_sender.py: keys read with
indexing (raising KeyError when absent) are Option fields; subject,
message_body and use_tls are read with .get and a default, so their absence
cannot fail. -/
structure EmailConfig where
  from_email : Option String
  to_email : Option String
  subject : Option String
  message_body : Option String
  smtp_server : Option String
  smtp_port : Option Nat
  username : Option String
  password : Option String
  use_tls : Option Bool
deriving DecidableEq

/-- Environment of one send_email call: whether the attachment file opens,
and whether each SMTP step (connect, login, sendmail) succeeds. -/
structure EmailEnv where
  attachmentExists : Bool
  smtpConnectOk : Bool
  loginOk : Bool
  sendOk : Bool
deriving DecidableEq

/-- The exceptions the try body of send_email can raise. -/
inductive EmailExc
  | keyError (k : String)
  | ioError
  | smtpError
deriving DecidableEq

/-- Python dictionary indexing config[k]: KeyError when the key is absent. -/
def cfgKey (v : Option String) (k : String) : Except EmailExc String :=
  match v with
  | some s => .ok s
  | none => .error (.keyError k)

/-- email_sender.py lines 29-60, the try body in source order: read the
From/To headers by indexing, build the attachment (failing when the file is
missing), return True early on dry_run before any SMTP work, then connect,
login and send, returning True. -/
def sendEmailBody (cfg : EmailConfig) (dryRun : Bool) (env : EmailEnv) :
    Except EmailExc Bool :=
  match cfgKey cfg.from_email "from_email" with
  | .error e => .error e
  | .ok _ =>
    match cfgKey cfg.to_email "to_email" with
    | .error e => .error e
    | .ok _ =>
      if env.attachmentExists = false then .error .ioError
      else if dryRun then .ok true
      else
        match cfgKey cfg.smtp_server "smtp_server" with
        | .error e => .error e
        | .ok _ =>
          match cfg.smtp_port with
          | none => .error (.keyError "smtp_port")
          | some _ =>
            if env.smtpConnectOk = false then .error .smtpError
            else
              match cfgKey cfg.username "username" with
              | .error e => .error e
              | .ok _ =>
                match cfgKey cfg.password "password" with
                | .error e => .error e
                | .ok _ =>
                  if env.loginOk = false then .error .smtpError
                  else if env.sendOk = false then .error .smtpError
                  else .ok true

/-- email_sender.py lines 27-64: the catch-all except turns every raised
exception into a logged message and the return value False, so send_email
always returns a Bool and never raises. -/
def send_email (cfg : EmailConfig) (dryRun : Bool) (env : EmailEnv) : Bool :=
  match sendEmailBody cfg dryRun env with
  | .ok b => b
  | .error _ => false

/-- Whether execution of send_email reaches the smtplib.SMTP(...) call: only
when the headers and the attachment were built, dry_run is off, and both
SMTP constructor arguments could be read from the config. -/
def sendEmailOpensSmtp (cfg : EmailConfig) (dryRun : Bool) (env : EmailEnv) : Bool :=
  cfg.from_email.isSome && cfg.to_email.isSome && env.attachmentExists && !dryRun
    && cfg.smtp_server.isSome && cfg.smtp_port.isSome

/-! Theorems. -/

/-- Dropping a list off itself leaves the appended remainder. -/
theorem dropExact_append (p rest : List Char) : dropExact p (p ++ rest) = some rest := by
  induction p with
  | nil => rfl
  | cons c cs ih => simp [dropExact, ih]

/-- Dropping a string followed by a quote from matching data. -/
theorem dropExact_data_sq (s : String) (rest : List Char) :
    dropExact (s ++ sq).data (s.data ++ squote :: rest) = some rest := by
  have h1 : (s ++ sq).data = s.data ++ [squote] := by
    rw [String.data_append]; rfl
  have h2 : s.data ++ squote :: rest = (s.data ++ [squote]) ++ rest := by simp
  rw [h1, h2]
  exact dropExact_append _ _

/-- Scanning a quote-free block followed by a quote returns the block. -/
theorem takeUntilQuote_append (xs rest : List Char) (h : squote ∉ xs) :
    takeUntilQuote (xs ++ squote :: rest) = some (xs, rest) := by
  induction xs with
  | nil => simp [takeUntilQuote]
  | cons c cs ih =>
    have hc : ¬ c = squote := by
      intro heq
      subst heq
      exact h (List.mem_cons_self _ _)
    have hcs : squote ∉ cs := fun hm => h (List.mem_cons_of_mem _ hm)
    simp [takeUntilQuote, hc, ih hcs]

/-- Claim C1, counterexample: with an empty input feed list, the test-mode
recipe feed list is empty, not a singleton — no fallback feed is substituted
by create_recipe_file. -/
theorem c1_counterexample :
    ¬ (feedList ⟨"DayNews Daily Digest", []⟩ true).length = 1 := by
  decide

/-- Claim C1, amended: building a recipe in test mode sets
max_articles_per_feed = 1 and truncates the feed list to its first element,
so the recipe has exactly one feed entry when the input is non-empty; when
the input feed list is empty the recipe feed list is empty (no fallback),
and the caller in main.py separately rejects empty feed lists with a
ValueError before building any recipe. -/
theorem c1_test_mode_truncation (fd : FeedsData) :
    maxArticlesPerFeed true = 1 ∧
    (fd.feeds ≠ [] → (feedList fd true).length = 1) ∧
    (fd.feeds = [] → feedList fd true = []) ∧
    mainFeedsCheck [] =
      .error (.valueError "No feeds to process - please check your feeds.json file") := by
  refine ⟨rfl, ?_, ?_, rfl⟩
  · intro h
    cases hf : fd.feeds with
    | nil => exact absurd hf h
    | cons a t => simp [feedList, hf]
  · intro h
    simp [feedList, h]

/-- Claim C1, witness for the amended theorem at a concrete one-feed input. -/
theorem c1_witness :
    (feedList ⟨"T", [⟨"A", "u"⟩]⟩ true).length = 1 :=
  (c1_test_mode_truncation ⟨"T", [⟨"A", "u"⟩]⟩).2.1 (by decide)

/-- Claim C7: the recipe text is a deterministic pure function of the feeds
data and the mode — the embedding of create_recipe_file takes no clock,
randomness or other run-dependent input, so two builds from identical inputs
produce byte-identical recipe content. -/
theorem c7_recipe_deterministic (fd1 fd2 : FeedsData) (tm1 tm2 : Bool)
    (h1 : fd1 = fd2) (h2 : tm1 = tm2) :
    recipeContent fd1 tm1 = recipeContent fd2 tm2 := by
  rw [h1, h2]

/-- Claim C7, witness at a concrete input. -/
theorem c7_witness :
    recipeContent ⟨"DayNews Daily Digest", [⟨"A", "http://a.test/rss"⟩]⟩ false =
      recipeContent ⟨"DayNews Daily Digest", [⟨"A", "http://a.test/rss"⟩]⟩ false :=
  c7_recipe_deterministic
    ⟨"DayNews Daily Digest", [⟨"A", "http://a.test/rss"⟩]⟩
    ⟨"DayNews Daily Digest", [⟨"A", "http://a.test/rss"⟩]⟩
    false false rfl rfl

/-- Claim C8: in normal mode the recipe uses the full feed list in order and
hardcodes max_articles_per_feed = 10; the spec scenario (one feed A, normal
mode) yields a recipe containing the line fragment and exactly one feed
tuple. However the cap is not caller-configurable: main.py passes the
keyword max_articles to create_recipe_file, which accepts no such parameter,
so the call raises TypeError. -/
theorem c8_normal_mode_cap_hardcoded :
    (∀ fd : FeedsData, feedList fd false = fd.feeds) ∧
    maxArticlesPerFeed false = 10 ∧
    strContains
      (recipeContent ⟨"DayNews Daily Digest", [⟨"A", "http://a.test/rss"⟩]⟩ false)
      "max_articles_per_feed = 10" = true ∧
    (feedList ⟨"DayNews Daily Digest", [⟨"A", "http://a.test/rss"⟩]⟩ false).map feedLine
      = [feedLine ⟨"A", "http://a.test/rss"⟩] ∧
    mainRecipeCallRaisesTypeError = true := by
  refine ⟨fun fd => rfl, rfl, ?_, rfl, rfl⟩
  decide

/-- Claim C3, counterexample: a feed title containing the quote delimiter is
interpolated verbatim (no escaping), and the generated line no longer parses
as a feed tuple at all — the round trip fails. -/
theorem c3_counterexample :
    parseFeedTuple (feedLine ⟨"O" ++ sq ++ "Brien", "http://x"⟩) = none ∧
    (some (("O" ++ sq ++ "Brien" : String), ("http://x" : String)) ≠
      (none : Option (String × String))) := by
  constructor
  · decide
  · decide

/-- Claim C3, amended: create_recipe_file performs no escaping — the title
and url are interpolated verbatim between single quotes — so the round trip
(parsing the generated feed tuple recovers the original strings) holds
exactly for titles and urls that contain no quote delimiter; an embedded
quote yields a line that is not a well-formed feed tuple. -/
theorem c3_roundtrip_no_quote (f : Feed)
    (ht : squote ∉ f.title.data) (hu : squote ∉ f.url.data) :
    parseFeedTuple (feedLine f) = some (f.title, f.url) := by
  rcases f with ⟨⟨tcs⟩, ⟨ucs⟩⟩
  have ht' : squote ∉ tcs := ht
  have hu' : squote ∉ ucs := hu
  have hdata : (feedLine ⟨String.mk tcs, String.mk ucs⟩).data =
      "        (".data ++ squote ::
        (tcs ++ squote :: (", ".data ++ squote ::
          (ucs ++ squote :: "),\n".data))) := by
    simp [feedLine, String.data_append, sq, String.singleton, List.append_assoc]
  rw [parseFeedTuple, hdata, dropExact_data_sq]
  dsimp only
  rw [takeUntilQuote_append tcs _ ht']
  dsimp only
  rw [dropExact_data_sq]
  dsimp only
  rw [takeUntilQuote_append ucs _ hu']
  dsimp only
  rw [if_pos rfl]

/-- Claim C3, witness for the amended round-trip at a concrete quote-free
feed. -/
theorem c3_witness :
    parseFeedTuple (feedLine ⟨"A", "http://a.test/rss"⟩) =
      some (("A" : String), ("http://a.test/rss" : String)) :=
  c3_roundtrip_no_quote ⟨"A", "http://a.test/rss"⟩ (by decide) (by decide)

/-- Claim C9, counterexample: a stdout line matching both an error marker and
a downloading marker is classified as Downloading by the code, while the
claimed priority order would classify it as Warning/Error; the code is also
case-sensitive on the FeedStart marker, so a lowercase feed line stays
uncategorized instead of FeedStart. -/
theorem c9_counterexample :
    classifyStdoutLine "Error while downloading feed" = .downloading ∧
    classifyClaimOrder "Error while downloading feed" = .warnError ∧
    LineCat.downloading ≠ LineCat.warnError ∧
    classifyStdoutLine "processing feed 3" = .uncategorized ∧
    classifyClaimOrder "processing feed 3" = .feedStart := by
  refine ⟨by decide, by decide, by decide, by decide, by decide⟩

/-- Claim C9, amended: classification is split by stream. A stdout line is
checked, in order, for the case-sensitive marker "Processing feed", then for
the case-insensitive markers downloading/fetching, parsing, converting, the
first match winning and anything else uncategorized; warning and error
markers are checked only against stderr lines (case-insensitive), so a
stdout line matching both an error marker and a progress marker is
classified as progress. -/
theorem c9_classifier_priority (line : String) :
    (strContains line "Processing feed" = true → classifyStdoutLine line = .feedStart) ∧
    (strContains line "Processing feed" = false →
      (strContains (lowerStr line) "downloading" || strContains (lowerStr line) "fetching") = true →
      classifyStdoutLine line = .downloading) ∧
    (strContains line "Processing feed" = false →
      (strContains (lowerStr line) "downloading" || strContains (lowerStr line) "fetching") = false →
      strContains (lowerStr line) "parsing" = true →
      classifyStdoutLine line = .parsing) ∧
    (strContains line "Processing feed" = false →
      (strContains (lowerStr line) "downloading" || strContains (lowerStr line) "fetching") = false →
      strContains (lowerStr line) "parsing" = false →
      strContains (lowerStr line) "converting" = true →
      classifyStdoutLine line = .converting) ∧
    (strContains line "Processing feed" = false →
      (strContains (lowerStr line) "downloading" || strContains (lowerStr line) "fetching") = false →
      strContains (lowerStr line) "parsing" = false →
      strContains (lowerStr line) "converting" = false →
      classifyStdoutLine line = .uncategorized) ∧
    ((strContains (lowerStr line) "error" || strContains (lowerStr line) "warning") = true ↔
      classifyStderrLine line = .warnError) := by
  refine ⟨?_, ?_, ?_, ?_, ?_, ?_⟩
  · intro h1
    simp [classifyStdoutLine, h1]
  · intro h1 h2
    simp [classifyStdoutLine, h1, h2]
  · intro h1 h2 h3
    simp [classifyStdoutLine, h1, h2, h3]
  · intro h1 h2 h3 h4
    simp [classifyStdoutLine, h1, h2, h3, h4]
  · intro h1 h2 h3 h4
    simp [classifyStdoutLine, h1, h2, h3, h4]
  · constructor
    · intro h
      simp [classifyStderrLine, h]
    · intro h
      by_contra hb
      simp only [Bool.not_eq_true] at hb
      simp [classifyStderrLine, hb] at h

/-- Claim C9, witness for the amended classifier at concrete lines. -/
theorem c9_witness :
    classifyStdoutLine "Processing feed 1 of 4" = .feedStart :=
  (c9_classifier_priority "Processing feed 1 of 4").1 (by decide)

/-- Claim C4, counterexample: in test mode without low_memory the code still
passes `--verbose` (plus the forced low-memory pair and the test-only flags
`--timeout 10 --max-toc-links 1`), so the command differs from the claimed
table at its fourth element already. -/
theorem c4_counterexample :
    buildCmd "r.recipe" "out.epub" false true ≠
      claimCmdTable "r.recipe" "out.epub" false true ∧
    buildCmd "r.recipe" "out.epub" false true =
      ["ebook-convert", "r.recipe", "out.epub", "--verbose",
        "--output-profile", "mobile", "--no-process-images",
        "--timeout", "10", "--max-toc-links", "1"] := by
  refine ⟨by decide, by decide⟩

/-- Claim C4, amended: for every mode both base argument lists include
`--verbose`; the pair `--output-profile mobile --no-process-images` is
appended exactly when low_memory is requested or test mode forces it; and
test mode additionally appends `--timeout 10 --max-toc-links 1`. -/
theorem c4_command_table (recipePath outputPath : String) (lowMemory testMode : Bool) :
    buildCmd recipePath outputPath lowMemory testMode =
      correctedCmdTable recipePath outputPath lowMemory testMode := by
  cases lowMemory <;> cases testMode <;>
    simp [buildCmd, correctedCmdTable]

/-- The poll loop times out only with the terminate flag set and only at an
elapsed time strictly past the budget. -/
theorem pollLoop_some_iff (timeout e : ℚ) (t : Bool) (l : List PollStep)
    (h : pollLoop timeout l = some (e, t)) : t = true ∧ timeout < e := by
  induction l with
  | nil => simp [pollLoop] at h
  | cons s rest ih =>
    by_cases hc : timeout < s.elapsed
    · rw [pollLoop, if_pos hc] at h
      injection h with h2
      injection h2 with ha hb
      exact ⟨hb.symm, ha ▸ hc⟩
    · rw [pollLoop, if_neg hc] at h
      exact ih h

/-- Claim C2, counterexample: at a request whose recipe file is missing — an
expected failure mode — generate_ebook raises (RuntimeError after
rewrapping), rather than returning any outcome value. -/
theorem c2_counterexample :
    (generateEbook ⟨false, ⟨[], 0⟩, true⟩ 300 "out.epub").isOk = false ∧
    generateEbook ⟨false, ⟨[], 0⟩, true⟩ 300 "out.epub" =
      .error (.runtimeError "Failed to generate ebook: recipe file not found") := by
  exact ⟨rfl, rfl⟩

/-- Claim C2, amended: generate_ebook signals every expected failure mode by
raising — each internal exception (recipe missing, timeout, non-zero exit)
is caught and uniformly rewrapped as RuntimeError — and returns a value (the
output path) exactly when the recipe exists, the loop does not time out, and
the exit code is zero; the tool-missing probe likewise raises RuntimeError
at construction. -/
theorem c2_failures_raise_runtime_error (env : GenEnv) (timeout : ℚ) (p : String) :
    (generateEbook env timeout p = .ok p ↔
      (env.recipeExists = true ∧ pollLoop timeout env.run.steps = none ∧
        env.run.exitCode = 0)) ∧
    (∀ e, generateEbook env timeout p = .error e → ∃ m, e = .runtimeError m) ∧
    verifyCalibreInstalled false =
      .error (.runtimeError "Calibre command-line tools are required but not found") := by
  refine ⟨?_, ?_, rfl⟩
  · unfold generateEbook generateEbookBody
    cases hrec : env.recipeExists
    · simp
    · cases hpoll : pollLoop timeout env.run.steps
      · by_cases hexit : env.run.exitCode = 0 <;> simp [hexit]
      · simp
  · intro e he
    unfold generateEbook generateEbookBody at he
    cases hrec : env.recipeExists <;> rw [hrec] at he
    · simp at he
      exact ⟨_, he.symm⟩
    · simp only [Bool.true_eq_false, if_neg] at he
      cases hpoll : pollLoop timeout env.run.steps <;> rw [hpoll] at he
      · by_cases hexit : env.run.exitCode = 0
        · simp [hexit] at he
        · simp [hexit] at he
          exact ⟨_, he.symm⟩
      · simp at he
        exact ⟨_, he.symm⟩

/-- Claim C2, witness: the amended characterization applied at a concrete
successful environment. -/
theorem c2_witness :
    generateEbook ⟨true, ⟨[], 0⟩, true⟩ 300 "o" = .ok "o" :=
  (c2_failures_raise_runtime_error ⟨true, ⟨[], 0⟩, true⟩ 300 "o").1.mpr
    ⟨rfl, rfl, rfl⟩

/-- Claim C5, counterexample: the child exits 0 but the declared output file
does not exist, and generate_ebook still returns the output path — the
supervisor itself reports success, with no OutputMissing outcome anywhere in
the code. -/
theorem c5_counterexample :
    generateEbook ⟨true, ⟨[], 0⟩, false⟩ 300 "out.epub" = .ok "out.epub" := rfl

/-- Claim C5, amended: generate_ebook returns the output path on exit code 0
without checking the artifact; the missing-output check lives in the caller
(main.py lines 111-114), which raises FileNotFoundError — failing the run
before any email — when the artifact is absent. -/
theorem c5_output_check_in_main (env : GenEnv) (timeout : ℚ) (p : String)
    (hrec : env.recipeExists = true)
    (hpoll : pollLoop timeout env.run.steps = none)
    (hexit : env.run.exitCode = 0)
    (hout : env.outputExists = false) :
    generateEbook env timeout p = .ok p ∧
    mainConvertAndVerify env timeout p =
      .error (.fileNotFound ("Failed to generate ebook file: " ++ p)) := by
  have hok : generateEbook env timeout p = .ok p := by
    unfold generateEbook generateEbookBody
    rw [hrec, hpoll]
    simp [hexit]
  refine ⟨hok, ?_⟩
  unfold mainConvertAndVerify
  rw [hok, hout]
  simp

/-- Claim C5, witness for the amended theorem at a concrete environment. -/
theorem c5_witness :
    mainConvertAndVerify ⟨true, ⟨[], 0⟩, false⟩ 300 "o" =
      .error (.fileNotFound ("Failed to generate ebook file: " ++ "o")) :=
  (c5_output_check_in_main ⟨true, ⟨[], 0⟩, false⟩ 300 "o" rfl rfl rfl rfl).2

/-- Claim C6, counterexample: the loop checks the budget only at the top of
each iteration, and the reads inside an iteration block while the child is
silent, so the elapsed time at the terminate call is not bounded by
timeout_seconds plus the 0.1 s poll interval: here the first poll after the
budget observes elapsed 1000 against a 10 s budget. Moreover the result is a
raised RuntimeError, not an outcome record carrying elapsed_seconds. -/
theorem c6_counterexample :
    pollLoop 10 [⟨1000, none, none⟩] = some (1000, true) ∧
    ¬ ((1000 : ℚ) ≤ 10 + 1) ∧
    generateEbook ⟨true, ⟨[⟨1000, none, none⟩], 0⟩, true⟩ 10 "o" =
      .error (.runtimeError "Ebook generation timed out") := by
  refine ⟨rfl, by norm_num, rfl⟩

/-- Claim C6, amended: when a poll iteration observes elapsed time strictly
past the budget, process.terminate() is invoked — the only kill site in the
supervisor, mirrored by the Bool of pollLoop — and the run raises the
timeout error (RuntimeError after rewrapping); the elapsed time at that
point exceeds the budget but carries no poll-interval bound, since the
per-iteration reads block while the child is silent. -/
theorem c6_timeout_terminates (env : GenEnv) (timeout e : ℚ) (t : Bool) (p : String)
    (hrec : env.recipeExists = true)
    (h : pollLoop timeout env.run.steps = some (e, t)) :
    t = true ∧ timeout < e ∧
    generateEbook env timeout p = .error (.runtimeError "Ebook generation timed out") := by
  obtain ⟨ht, he⟩ := pollLoop_some_iff timeout e t env.run.steps h
  refine ⟨ht, he, ?_⟩
  unfold generateEbook generateEbookBody
  rw [hrec, h]
  simp

/-- Claim C6, witness for the amended theorem at a concrete trace. -/
theorem c6_witness :
    generateEbook ⟨true, ⟨[⟨20, none, none⟩], 0⟩, true⟩ 10 "o" =
      .error (.runtimeError "Ebook generation timed out") :=
  (c6_timeout_terminates ⟨true, ⟨[⟨20, none, none⟩], 0⟩, true⟩ 10 20 true "o" rfl
    rfl).2.2

/-- Claim C10: send_email is total — the catch-all except collapses every
raised exception to the return value False — a missing attachment yields
False (even under dry_run, since the attachment is built before the dry_run
check), dry_run never opens an SMTP connection, and the call returns True
exactly when the headers and attachment are built and either dry_run is set
or the whole SMTP exchange succeeds. -/
theorem c10_send_email_never_raises (cfg : EmailConfig) (dryRun : Bool) (env : EmailEnv) :
    (env.attachmentExists = false → send_email cfg dryRun env = false) ∧
    (dryRun = true → sendEmailOpensSmtp cfg dryRun env = false) ∧
    (send_email cfg dryRun env = true ↔
      (cfg.from_email.isSome = true ∧ cfg.to_email.isSome = true ∧
        env.attachmentExists = true ∧
        (dryRun = true ∨
          (cfg.smtp_server.isSome = true ∧ cfg.smtp_port.isSome = true ∧
            env.smtpConnectOk = true ∧ cfg.username.isSome = true ∧
            cfg.password.isSome = true ∧ env.loginOk = true ∧
            env.sendOk = true)))) := by
  rcases cfg with ⟨fe, te, su, mb, ss, sp, un, pw, ut⟩
  rcases env with ⟨ae, co, lo, so⟩
  refine ⟨?_, ?_, ?_⟩
  · intro h
    subst h
    rcases fe with _ | fe <;> rcases te with _ | te <;>
      simp [send_email, sendEmailBody, cfgKey]
  · intro h
    subst h
    simp [sendEmailOpensSmtp]
  · rcases fe with _ | fe
    · simp [send_email, sendEmailBody, cfgKey]
    · rcases te with _ | te
      · simp [send_email, sendEmailBody, cfgKey]
      · cases ae
        · simp [send_email, sendEmailBody, cfgKey]
        · cases dryRun
          · rcases ss with _ | ss <;> rcases sp with _ | sp <;> cases co <;>
              rcases un with _ | un <;> rcases pw with _ | pw <;> cases lo <;>
              cases so <;> simp [send_email, sendEmailBody, cfgKey]
          · simp [send_email, sendEmailBody, cfgKey]

/-- Claim C10, witness: a fully configured non-dry-run send succeeds, by the
characterization applied at a concrete configuration. -/
theorem c10_witness :
    send_email ⟨some "a@x", some "b@x", none, none, some "smtp.x", some 587,
      some "u", some "p", some true⟩ false ⟨true, true, true, true⟩ = true :=
  (c10_send_email_never_raises ⟨some "a@x", some "b@x", none, none, some "smtp.x",
    some 587, some "u", some "p", some true⟩ false ⟨true, true, true, true⟩).2.2.mpr
    ⟨rfl, rfl, rfl, Or.inr ⟨rfl, rfl, rfl, rfl, rfl, rfl, rfl⟩⟩

end DayNews
